import Mathlib

set_option maxHeartbeats 1000000

/-!
Shallow embedding of the music bot's session/queue engine
(`src/system.py` and `src/main.py`).

Conventions of the embedding:
* Python floats that hold clock readings and time windows are modelled as
  rationals (`Rat`); Python ints as `Int`.
* Each SQLite table is an association list carried inside a `DB` record.
  In the source, every `SQLiteStore._execute` call acquires the store lock,
  runs exactly one SQL statement, commits and releases the lock; one such
  call is therefore one atomic step of the store, and is modelled as one
  Lean function from `DB` to `DB`.
* The controller state for one guild (the unit of isolation) is a
  `SysState`: the durable `DB`, the in-memory `GuildSession`, the voice
  client (`Option Player`, `none` meaning no voice connection), and the
  Lavalink node availability flag.
* `asyncio` tasks created by `MusicController.play_next` for
  `_idle_disconnect` are modelled by the armed deadline
  (`GuildSession.idle_task : Option Rat`): the only cancellation site in
  the source (`play_next`, empty-queue branch) immediately replaces the
  task with a fresh one, so an armed pending timer is exactly `some d`.
  Firing of a pending timer at its deadline is the `idle_disconnect` step.
* Pure I/O with no state effect relevant to the store or the session
  (sending embeds, the wavelink transport itself) is not modelled; the
  effect of `player.play(track)` on the player handle is (current track,
  playing flag, volume).
-/

/-- Python truthiness coalescing `a or d` for an optional integer value
    (`None` and `0` are falsy), as in `row["length"] or 0` and
    `settings["volume"] or 100`. -/
def pyOrIntD (a : Option Int) (d : Int) : Int :=
  match a with
  | none => d
  | some n => if n = 0 then d else n

/-- Python truthiness coalescing `a or d` for an optional string value
    (`None` and `""` are falsy), as in `row["author"] or "Unknown"`. -/
def pyOrStrD (a : Option String) (d : String) : String :=
  match a with
  | none => d
  | some s => if s = "" then d else s

/-- Python `a or b` on two optional integers, as in
    `role_id = db_role_id or self.dj_role_id` in `MusicController.has_dj`. -/
def pyOrInt (a b : Option Int) : Option Int :=
  match a with
  | none => b
  | some n => if n = 0 then b else some n

/-- Python truthiness of an optional integer (`if not role_id`). -/
def intTruthy : Option Int → Bool
  | none => false
  | some n => n != 0

/-- `StoredTrack` dataclass of `src/system.py`. -/
structure StoredTrack where
  title : String
  uri : String
  author : String
  length : Int
  artwork : Option String
  requester_id : Int
deriving DecidableEq

/-- A `wavelink.Playable` as the controller uses it: the track info fields
    plus the `extras` requester id attached on enqueue (absent until set). -/
structure Playable where
  title : String
  uri : String
  author : String
  length : Int
  artwork : Option String
  extras_requester : Option Int
deriving DecidableEq

/-- `MusicController._stored`: project a playable to its durable form
    (`extras.get("requester_id", 0)`). -/
def stored (t : Playable) : StoredTrack :=
  { title := t.title
    uri := t.uri
    author := t.author
    length := t.length
    artwork := t.artwork
    requester_id := t.extras_requester.getD 0 }

/-- One row of the `persistent_queue` table (`guild_id, position` primary
    key; `title, uri` NOT NULL; the remaining columns nullable). -/
structure QueueRow where
  guild_id : Int
  position : Int
  title : String
  uri : String
  author : Option String
  length : Option Int
  artwork : Option String
  requester_id : Option Int
deriving DecidableEq

/-- One row of the `guild_settings` table. -/
structure GuildSettingsRow where
  dj_role_id : Option Int
  volume : Option Int
  idle_timeout : Option Int
  last_text_channel : Option Int
  player_message_id : Option Int
deriving DecidableEq

/-- The DEFAULT column values of `guild_settings`
    (`volume INTEGER DEFAULT 100`, `idle_timeout INTEGER DEFAULT 120`). -/
def defaultGuildSettings : GuildSettingsRow :=
  { dj_role_id := none
    volume := some 100
    idle_timeout := some 120
    last_text_channel := none
    player_message_id := none }

/-- One row of the append-only `playback_history` table (the wall-clock
    `played_at` text column carries no program logic and is omitted). -/
structure HistoryRow where
  guild_id : Int
  title : String
  uri : String
  requester_id : Int
deriving DecidableEq

/-- One row of the append-only `error_logs` table. -/
structure ErrorRow where
  guild_id : Option Int
  context : String
  error : String
deriving DecidableEq

/-- The durable store: the five tables created by `SQLiteStore._setup_sync`. -/
structure DB where
  guild_settings : List (Int × GuildSettingsRow)
  persistent_queue : List QueueRow
  playback_history : List HistoryRow
  error_logs : List ErrorRow
  command_cooldowns : List ((Int × Int × String) × Rat)
deriving DecidableEq

/-- A freshly initialised store. -/
def emptyDB : DB :=
  { guild_settings := []
    persistent_queue := []
    playback_history := []
    error_logs := []
    command_cooldowns := [] }

/-- `SELECT * FROM guild_settings WHERE guild_id = g` (primary-key lookup). -/
def lookupSettings : List (Int × GuildSettingsRow) → Int → Option GuildSettingsRow
  | [], _ => none
  | p :: ps, g => if p.1 = g then some p.2 else lookupSettings ps g

/-- `SQLiteStore.get_guild_settings`: `INSERT OR IGNORE` a default row,
    then `SELECT` it; returns the row and the possibly-extended store. -/
def getGuildSettings (db : DB) (g : Int) : GuildSettingsRow × DB :=
  match lookupSettings db.guild_settings g with
  | some row => (row, db)
  | none =>
    (defaultGuildSettings,
     { db with guild_settings := db.guild_settings ++ [(g, defaultGuildSettings)] })

/-- `DELETE FROM persistent_queue WHERE guild_id = g`. -/
def deleteGuildRows : List QueueRow → Int → List QueueRow
  | [], _ => []
  | r :: rs, g => if r.guild_id = g then deleteGuildRows rs g else r :: deleteGuildRows rs g

/-- `SELECT * FROM persistent_queue WHERE guild_id = g` (row order as stored). -/
def selectGuildRows : List QueueRow → Int → List QueueRow
  | [], _ => []
  | r :: rs, g => if r.guild_id = g then r :: selectGuildRows rs g else selectGuildRows rs g

/-- The row inserted for `tracks[pos]` by `SQLiteStore.save_queue`. -/
def mkRow (g : Int) (pos : Int) (t : StoredTrack) : QueueRow :=
  { guild_id := g
    position := pos
    title := t.title
    uri := t.uri
    author := some t.author
    length := some t.length
    artwork := t.artwork
    requester_id := some t.requester_id }

/-- The first atomic statement of `SQLiteStore.save_queue`: one `_execute`
    (own lock acquisition and commit) running the `DELETE`. -/
def saveQueueDelete (g : Int) (db : DB) : DB :=
  { db with persistent_queue := deleteGuildRows db.persistent_queue g }

/-- One later atomic statement of `SQLiteStore.save_queue`: one `_execute`
    (own lock acquisition and commit) running a single-row `INSERT`. -/
def saveQueueInsert (g : Int) (pos : Int) (t : StoredTrack) (db : DB) : DB :=
  { db with persistent_queue := db.persistent_queue ++ [mkRow g pos t] }

/-- `SQLiteStore.save_queue`: the `DELETE` followed by one `INSERT` per
    `enumerate(tracks)` entry.  Note that in the source each of these is a
    separate awaited `_execute` call, so the store lock is released and the
    transaction committed between every two of them. -/
def save_queue (db : DB) (g : Int) (tracks : List StoredTrack) : DB :=
  tracks.enum.foldl (fun acc pt => saveQueueInsert g (Int.ofNat pt.1) pt.2 acc)
    (saveQueueDelete g db)

/-- Insertion step of `ORDER BY position ASC`. -/
def insertByPos (r : QueueRow) : List QueueRow → List QueueRow
  | [] => [r]
  | x :: xs => if r.position ≤ x.position then r :: x :: xs else x :: insertByPos r xs

/-- `ORDER BY position ASC` as an insertion sort. -/
def sortByPosition : List QueueRow → List QueueRow
  | [] => []
  | x :: xs => insertByPos x (sortByPosition xs)

/-- The per-row reconstruction in `SQLiteStore.load_queue`, with the
    Python-truthiness coalescing of the nullable columns. -/
def rowToStored (r : QueueRow) : StoredTrack :=
  { title := r.title
    uri := r.uri
    author := pyOrStrD r.author "Unknown"
    length := pyOrIntD r.length 0
    artwork := r.artwork
    requester_id := pyOrIntD r.requester_id 0 }

/-- `SQLiteStore.load_queue`. -/
def load_queue (db : DB) (g : Int) : List StoredTrack :=
  (sortByPosition (selectGuildRows db.persistent_queue g)).map rowToStored

/-- `SQLiteStore.add_history`. -/
def add_history (db : DB) (g : Int) (t : StoredTrack) : DB :=
  { db with playback_history := db.playback_history ++
      [{ guild_id := g, title := t.title, uri := t.uri, requester_id := t.requester_id }] }

/-- `SQLiteStore.log_error` (`error[:1900]` truncation). -/
def log_error (db : DB) (g : Option Int) (context err : String) : DB :=
  { db with error_logs := db.error_logs ++
      [{ guild_id := g, context := context, error := err.take 1900 }] }

/-- `SELECT last_used FROM command_cooldowns WHERE` the full primary key. -/
def lookupCooldown : List ((Int × Int × String) × Rat) → (Int × Int × String) → Option Rat
  | [], _ => none
  | p :: ps, k => if p.1 = k then some p.2 else lookupCooldown ps k

/-- `INSERT ... ON CONFLICT(guild_id, user_id, command) DO UPDATE SET
    last_used = excluded.last_used` on the primary-key-unique table. -/
def upsertCooldown : List ((Int × Int × String) × Rat) → (Int × Int × String) → Rat →
    List ((Int × Int × String) × Rat)
  | [], k, v => [(k, v)]
  | p :: ps, k, v => if p.1 = k then (k, v) :: ps else p :: upsertCooldown ps k v

/-- `SQLiteStore.is_on_cooldown`: read the record, return `true` (throttled)
    without writing when `now - last_used < cooldown_s`, otherwise upsert
    `now` and return `false`. -/
def is_on_cooldown (db : DB) (g u : Int) (command : String) (cooldown_s now : Rat) :
    Bool × DB :=
  match lookupCooldown db.command_cooldowns (g, u, command) with
  | some last =>
    if now - last < cooldown_s then (true, db)
    else (false, { db with command_cooldowns :=
                    upsertCooldown db.command_cooldowns (g, u, command) now })
  | none =>
    (false, { db with command_cooldowns :=
               upsertCooldown db.command_cooldowns (g, u, command) now })

/-- `GuildSession` of `src/system.py`; `idle_task = some d` is a pending
    `_idle_disconnect` task armed to fire at deadline `d`. -/
structure GuildSession where
  queue : List Playable
  loop_mode : String
  default_volume : Int
  last_track : Option Playable
  idle_task : Option Rat
  retry_attempts : Int
deriving DecidableEq

/-- The `GuildSession.__init__` state. -/
def initSession : GuildSession :=
  { queue := []
    loop_mode := "off"
    default_volume := 100
    last_track := none
    idle_task := none
    retry_attempts := 0 }

/-- A `wavelink.Player` voice client as the controller observes it. -/
structure Player where
  channel_id : Int
  current : Option Playable
  playing : Bool
  paused : Bool
  volume : Int
deriving DecidableEq

/-- The state the controller sees for one guild: durable store, in-memory
    session, voice client (`none` when disconnected), and node availability
    (`wavelink.Pool.nodes` non-empty). -/
structure SysState where
  guild_id : Int
  db : DB
  session : GuildSession
  player : Option Player
  lavalink_connected : Bool
deriving DecidableEq

/-- `MusicController.play_next` at event-loop time `now`.  The branch
    structure follows the source: no player means no effect; `loop_mode ==
    "track"` with a current track replays it; `loop_mode == "queue"` first
    re-appends the current track; an empty queue cancels any pending idle
    task and arms a fresh 120 s one; otherwise the queue front is popped,
    played at the session volume, the remainder persisted and history
    appended (the now-playing embed is UI and not modelled). -/
def play_next (st : SysState) (now : Rat) : SysState :=
  match st.player with
  | none => st
  | some p =>
    if p.current.isSome && (st.session.loop_mode == "track") then
      { st with player := some { p with playing := true } }
    else
      let session :=
        match p.current with
        | some c =>
          if st.session.loop_mode == "queue" then
            { st.session with queue := st.session.queue ++ [c] }
          else st.session
        | none => st.session
      match session.queue with
      | [] => { st with session := { session with idle_task := some (now + 120) } }
      | t :: rest =>
        let session2 := { session with queue := rest, last_track := some t }
        let p2 := { p with current := some t, playing := true
                           volume := session2.default_volume }
        let db2 := add_history (save_queue st.db st.guild_id (rest.map stored))
          st.guild_id (stored t)
        { st with session := session2, player := some p2, db := db2 }

/-- `MusicController._idle_disconnect` after its sleep: disconnect the
    voice client whenever one exists (the source checks only
    `guild and guild.voice_client`, not whether playback is idle).  This
    step runs when a pending `idle_task` reaches its deadline. -/
def idle_disconnect (st : SysState) : SysState :=
  match st.player with
  | some _ => { st with player := none }
  | none => st

/-- The caller of `MusicController.play_query`: their id and the voice
    channel they are in, if any. -/
structure VoiceUser where
  user_id : Int
  voice_channel : Option Int
deriving DecidableEq

/-- The outcome of `wavelink.Playable.search`: falsy result, a
    `wavelink.Playlist` (all tracks enqueued), or a track list (only
    `results[0]` enqueued). -/
inductive SearchResult
  | no_results
  | playlist (tracks : List Playable)
  | single (track : Playable)
deriving DecidableEq

/-- The enqueue loop of `MusicController.play_query`: skip tracks whose
    `uri` is already known, otherwise tag the requester, append, record the
    `uri`, and count the addition.  Returns (queue, known uris, added). -/
def enqueue_dedup (queue : List Playable) (existing : List String) (uid : Int) :
    List Playable → List Playable × List String × Nat
  | [] => (queue, existing, 0)
  | t :: ts =>
    if existing.contains t.uri then enqueue_dedup queue existing uid ts
    else
      let res := enqueue_dedup (queue ++ [{ t with extras_requester := some uid }])
        (existing ++ [t.uri]) uid ts
      (res.1, res.2.1, res.2.2 + 1)

/-- `MusicController.play_query` with the search outcome passed in.
    Mirrors the source order: voice-channel guard, settings fetch (and
    session volume), `ensure_player` (move or connect), node guard, search
    result guard, de-duplicating enqueue against pending uris and the
    current track's uri, snapshot persistence, and `play_next` when the
    player is neither playing nor paused. -/
def play_query (st : SysState) (user : VoiceUser) (result : SearchResult) (now : Rat) :
    String × SysState :=
  match user.voice_channel with
  | none => ("Join a voice channel first.", st)
  | some vc =>
    let gs := getGuildSettings st.db st.guild_id
    let session := { st.session with default_volume := pyOrIntD gs.1.volume 100 }
    let player :=
      match st.player with
      | some p => if p.channel_id ≠ vc then { p with channel_id := vc } else p
      | none => { channel_id := vc, current := none, playing := false
                  paused := false, volume := 100 }
    let st1 : SysState := { st with db := gs.2, session := session, player := some player }
    if !st1.lavalink_connected then ("Lavalink is not connected.", st1)
    else
      match result with
      | .no_results => ("No tracks found.", st1)
      | r =>
        let incoming :=
          match r with
          | .playlist ts => ts
          | .single t => [t]
          | .no_results => []
        let existing := session.queue.map Playable.uri ++
          (match player.current with | some c => [c.uri] | none => [])
        let res := enqueue_dedup session.queue existing user.user_id incoming
        let added := res.2.2
        let st2 : SysState := { st1 with session := { session with queue := res.1 } }
        let st3 : SysState := { st2 with db := save_queue st2.db st2.guild_id (res.1.map stored) }
        let st4 := if !player.playing && !player.paused then play_next st3 now else st3
        (s!"Queued {added} track(s).", st4)

/-- What `MusicController.handle_track_exception` asks the adapter to do:
    replay the current track, force-skip it, or nothing (no player or no
    current track). -/
inductive ExcAction
  | replay
  | force_skip
  | no_action
deriving DecidableEq

/-- `MusicController.handle_track_exception`: log the error, then with a
    player and a current track either replay in place (fewer than two prior
    attempts, counter incremented) or reset the counter and force-skip. -/
def handle_track_exception (st : SysState) (exc : String) : SysState × ExcAction :=
  let db := log_error st.db (st.player.map fun _ => st.guild_id) "track_exception" exc
  match st.player with
  | some p =>
    match p.current with
    | some _ =>
      if st.session.retry_attempts < 2 then
        ({ st with db := db
                   session := { st.session with retry_attempts := st.session.retry_attempts + 1 }
                   player := some { p with playing := true } }, .replay)
      else
        ({ st with db := db
                   session := { st.session with retry_attempts := 0 } }, .force_skip)
    | none => ({ st with db := db }, .no_action)
  | none => ({ st with db := db }, .no_action)

/-- `MusicController.remove` (1-based index): out-of-range indices are
    rejected with no mutation; otherwise the entry is deleted and the full
    snapshot re-persisted. -/
def remove (st : SysState) (index : Int) : String × SysState :=
  if index < 1 ∨ index > (st.session.queue.length : Int) then
    ("Invalid queue index.", st)
  else
    let queue2 := st.session.queue.eraseIdx (index - 1).toNat
    let st2 : SysState := { st with session := { st.session with queue := queue2 } }
    ("Removed track.", { st2 with db := save_queue st2.db st2.guild_id (queue2.map stored) })

/-- The caller of `MusicController.has_dj`: whether they are a
    `discord.Member` of the guild, their administrator bit, and their role
    ids. -/
structure DiscordUser where
  is_member : Bool
  administrator : Bool
  roles : List Int
deriving DecidableEq

/-- `MusicController.has_dj` given the store and the process-wide default
    DJ role id (`self.dj_role_id`): non-members fail, administrators pass,
    then the effective role is `db_role_id or self.dj_role_id` under Python
    truthiness; a falsy effective role passes everyone, otherwise the user
    must hold it. -/
def has_dj (db : DB) (dj_role_id : Option Int) (g : Int) (u : DiscordUser) : Bool :=
  if !u.is_member then false
  else if u.administrator then true
  else
    let settings := (getGuildSettings db g).1
    let role_id := pyOrInt settings.dj_role_id dj_role_id
    if !intTruthy role_id then true
    else u.roles.any fun rid => rid == role_id.getD 0

/-- An inbound chat message as `DemonBot.on_message` observes it:
    `loop_time` is the `asyncio` event-loop clock at receipt and
    `wall_time` the `time.time()` value the cooldown gate samples. -/
structure InboundMessage where
  author_id : Int
  author_is_bot : Bool
  guild_id : Option Int
  content : String
  loop_time : Rat
  wall_time : Rat
deriving DecidableEq

/-- `dict.get(author_id, 0)` on `user_message_window`. -/
def windowGet : List (Int × Rat) → Int → Rat
  | [], _ => 0
  | p :: ps, a => if p.1 = a then p.2 else windowGet ps a

/-- `self.user_message_window[author_id] = now`. -/
def windowSet : List (Int × Rat) → Int → Rat → List (Int × Rat)
  | [], a, v => [(a, v)]
  | p :: ps, a, v => if p.1 = a then (a, v) :: ps else p :: windowSet ps a v

/-- The bot-level state touched by `DemonBot.on_message` before dispatch:
    the per-author in-memory message window and the durable store. -/
structure BotState where
  user_message_window : List (Int × Rat)
  db : DB
deriving DecidableEq

/-- Where `DemonBot.on_message` stops for a message: early return on bot
    authors and DMs, the in-memory per-author rate limit, empty content,
    an unrecognized leading token, the durable cooldown gate, or dispatch
    of a recognized command to its handler. -/
inductive MsgOutcome
  | ignored_bot_or_dm
  | dropped_rate_limit
  | ignored_empty
  | ignored_unknown
  | dropped_cooldown
  | dispatched (command : String) (args : List String)
deriving DecidableEq

/-- Python `str.split()` with no separator argument — split on runs of
    whitespace, producing no empty words — implemented structurally on the
    character list (`acc` holds the reversed current word). -/
def pySplitAux : List Char → List Char → List String
  | [], acc => if acc = [] then [] else [String.mk acc.reverse]
  | ch :: cs, acc =>
    if ch.isWhitespace then
      if acc = [] then pySplitAux cs []
      else String.mk acc.reverse :: pySplitAux cs []
    else pySplitAux cs (ch :: acc)

/-- Python `content.split()` as `DemonBot.on_message` uses it.  Note
    `content.strip()` is empty exactly when this word list is empty, and
    splitting the stripped text equals splitting the original. -/
def pySplit (s : String) : List String := pySplitAux s.data []

/-- Python `str.lower()` (the command token is ASCII). -/
def pyLower (s : String) : String := String.mk (s.data.map Char.toLower)

/-- The recognized command set of `DemonBot.on_message`. -/
def knownCommands : List String :=
  ["play", "pause", "resume", "skip", "stop", "queue", "remove", "clear",
   "shuffle", "loop", "volume", "seek", "dj", "filter", "speed", "pitch"]

/-- `DemonBot.on_message` up to the dispatch boundary: the guard order of
    the source (bot/DM, 0.6 s per-author window on the loop clock, empty
    content, known-command set, 1.2 s durable cooldown) and the state each
    guard leaves behind.  `dispatched` marks that control reached the
    command handler. -/
def on_message (st : BotState) (m : InboundMessage) : MsgOutcome × BotState :=
  match m.guild_id with
  | none => (.ignored_bot_or_dm, st)
  | some g =>
    if m.author_is_bot then (.ignored_bot_or_dm, st)
    else
      let last := windowGet st.user_message_window m.author_id
      if m.loop_time - last < 3 / 5 then (.dropped_rate_limit, st)
      else
        let st1 : BotState :=
          { st with user_message_window :=
              windowSet st.user_message_window m.author_id m.loop_time }
        let parts := pySplit m.content
        if parts = [] then (.ignored_empty, st1)
        else
          let command := pyLower (parts.headD "")
          if !(knownCommands.contains command) then (.ignored_unknown, st1)
          else
            let res := is_on_cooldown st1.db g m.author_id command (6 / 5) m.wall_time
            let st2 : BotState := { st1 with db := res.2 }
            if res.1 then (.dropped_cooldown, st2)
            else (.dispatched command (parts.drop 1), st2)

/-! Concrete scenario for claim C1: an empty-queue `play_next` arms the
    idle-disconnect timer, a successful `play_query` follows well before the
    120 s deadline, and the timer then reaches its deadline. -/

/-- A connected, idle voice client whose guild queue has just run out. -/
def c1Start : SysState :=
  { guild_id := 1
    db := emptyDB
    session := initSession
    player := some { channel_id := 5, current := none, playing := false
                     paused := false, volume := 100 }
    lavalink_connected := true }

/-- The track the later `play_query` enqueues. -/
def c1TrackB : Playable :=
  { title := "B", uri := "uri-b", author := "Author B", length := 200000
    artwork := none, extras_requester := none }

/-- The empty-queue `play_next` at loop time 0: arms the 120 s timer. -/
def c1Armed : SysState := play_next c1Start 0

/-- A successful `play_query` at loop time 60, before the deadline. -/
def c1AfterPlay : String × SysState :=
  play_query c1Armed ⟨42, some 5⟩ (.single c1TrackB) 60

/-- C1: the claim states that a successful `play_query` before the idle
    timer's deadline cancels the pending timer so that no voice disconnect
    occurs at the deadline.  The code violates this: the empty-queue
    `play_next` at time 0 arms the timer (deadline 120); the `play_query`
    at time 60 succeeds and starts playback but leaves the pending timer
    armed (neither `play_query` nor the non-empty branch of `play_next`
    touches `idle_task`); and when the timer fires, `_idle_disconnect`
    disconnects whenever a voice client exists — playback state is never
    consulted — so the playing session is torn down. -/
theorem c1_idle_timer_fires_despite_play_query :
  c1Armed.session.idle_task = some 120 ∧
  c1AfterPlay.1 = "Queued 1 track(s)." ∧
  c1AfterPlay.2.session.idle_task = some 120 ∧
  c1AfterPlay.2.player.map Player.playing = some true ∧
  (idle_disconnect c1AfterPlay.2).player = none := by
  refine ⟨?_, by decide, ?_, by decide, by decide⟩
  · norm_num [c1Armed, c1Start, play_next, initSession]
  · norm_num [c1AfterPlay, c1Armed, c1Start, play_query, play_next, initSession,
      emptyDB, getGuildSettings, lookupSettings, defaultGuildSettings, pyOrIntD,
      enqueue_dedup, c1TrackB, save_queue, saveQueueDelete, saveQueueInsert,
      deleteGuildRows, mkRow, stored, add_history]

/-! Concrete scenario for claim C4: `save_queue` runs its `DELETE` and each
    `INSERT` as separate `_execute` calls, each of which acquires the store
    lock, runs one statement, commits and releases the lock, so a concurrent
    reader can run between any two of them. -/

/-- The track of the previous durable snapshot. -/
def c4Old : StoredTrack :=
  { title := "X", uri := "uri-x", author := "AX", length := 1000
    artwork := none, requester_id := 9 }

/-- First track of the new snapshot. -/
def c4T1 : StoredTrack :=
  { title := "T1", uri := "uri-1", author := "A1", length := 2000
    artwork := none, requester_id := 9 }

/-- Second track of the new snapshot. -/
def c4T2 : StoredTrack :=
  { title := "T2", uri := "uri-2", author := "A2", length := 3000
    artwork := none, requester_id := 9 }

/-- A store already holding the snapshot `[c4Old]` for guild 1. -/
def c4Db : DB := save_queue emptyDB 1 [c4Old]

/-- C4: the claim states that the delete and the inserts execute as one
    transaction, so no concurrent observer can see an empty or partially
    written queue.  The code violates this: `save_queue` is the composition
    of separately committed atomic statements (conjunct four shows the
    decomposition is exact), and an observer running `load_queue` after the
    committed `DELETE` sees an empty queue, while one running after the
    first committed `INSERT` sees a partial snapshot — neither the old
    snapshot `[c4Old]` nor the new `[c4T1, c4T2]`. -/
theorem c4_save_queue_intermediate_states_observable :
  load_queue c4Db 1 = [c4Old] ∧
  load_queue (saveQueueDelete 1 c4Db) 1 = [] ∧
  load_queue (saveQueueInsert 1 0 c4T1 (saveQueueDelete 1 c4Db)) 1 = [c4T1] ∧
  save_queue c4Db 1 [c4T1, c4T2] =
    saveQueueInsert 1 1 c4T2 (saveQueueInsert 1 0 c4T1 (saveQueueDelete 1 c4Db)) ∧
  load_queue (save_queue c4Db 1 [c4T1, c4T2]) 1 = [c4T1, c4T2] := by
  decide

/-- C2: starting from `retry_attempts = 0`, three consecutive
    track-exception events for the same current track cause exactly two
    same-track replays — the counter going 0 to 1 to 2 and the replay
    playing the unchanged current track — and on the third failure the
    counter is reset to 0 and the track is force-skipped instead of
    replayed. -/
theorem c2_retry_bound (st : SysState) (p : Player) (t : Playable) (e1 e2 e3 : String)
    (hr : st.session.retry_attempts = 0) (hp : st.player = some p)
    (hc : p.current = some t) :
    (handle_track_exception st e1).2 = .replay ∧
    (handle_track_exception st e1).1.session.retry_attempts = 1 ∧
    (handle_track_exception st e1).1.player.bind Player.current = some t ∧
    (handle_track_exception (handle_track_exception st e1).1 e2).2 = .replay ∧
    (handle_track_exception (handle_track_exception st e1).1 e2).1.session.retry_attempts = 2 ∧
    (handle_track_exception (handle_track_exception st e1).1 e2).1.player.bind Player.current
      = some t ∧
    (handle_track_exception
      (handle_track_exception (handle_track_exception st e1).1 e2).1 e3).2 = .force_skip ∧
    (handle_track_exception
      (handle_track_exception (handle_track_exception st e1).1 e2).1 e3).1.session.retry_attempts
      = 0 := by
  simp [handle_track_exception, hp, hc, hr]

/-- The current track of the retry-bound witness scenario. -/
def c2Track : Playable :=
  { title := "T", uri := "uri-t", author := "A", length := 1000
    artwork := none, extras_requester := some 3 }

/-- The player of the retry-bound witness scenario. -/
def c2P : Player :=
  { channel_id := 5, current := some c2Track, playing := true, paused := false
    volume := 100 }

/-- The state of the retry-bound witness scenario. -/
def c2State : SysState :=
  { guild_id := 1, db := emptyDB, session := initSession, player := some c2P
    lavalink_connected := true }

/-- Witness for C2 at a concrete state. -/
theorem c2_retry_bound_witness :
    c2State.session.retry_attempts = 0 ∧
    (handle_track_exception c2State "e1").2 = .replay ∧
    (handle_track_exception (handle_track_exception c2State "e1").1 "e2").2 = .replay ∧
    (handle_track_exception
      (handle_track_exception (handle_track_exception c2State "e1").1 "e2").1 "e3").2
      = .force_skip :=
  ⟨rfl, (c2_retry_bound c2State c2P c2Track "e1" "e2" "e3" rfl rfl rfl).1,
    (c2_retry_bound c2State c2P c2Track "e1" "e2" "e3" rfl rfl rfl).2.2.2.1,
    (c2_retry_bound c2State c2P c2Track "e1" "e2" "e3" rfl rfl rfl).2.2.2.2.2.2.1⟩

/-- C5: for a guild member, the DJ check passes administrators
    unconditionally; when the effective role — the guild-stored role or
    else the process-wide default, under Python truthiness — is not
    configured (falsy), every member passes, administrator or not; and when
    an effective role `r` is configured, exactly the administrators and the
    holders of `r` pass. -/
theorem c5_has_dj_policy (db : DB) (d : Option Int) (g : Int) (u : DiscordUser)
    (hm : u.is_member = true) :
    (u.administrator = true → has_dj db d g u = true) ∧
    (intTruthy (pyOrInt (getGuildSettings db g).1.dj_role_id d) = false →
      has_dj db d g u = true) ∧
    (∀ r : Int, pyOrInt (getGuildSettings db g).1.dj_role_id d = some r → r ≠ 0 →
      (has_dj db d g u = true ↔ u.administrator = true ∨ r ∈ u.roles)) := by
  by_cases ha : u.administrator = true
  · refine ⟨fun _ => ?_, fun _ => ?_, fun r hr hr0 => ?_⟩ <;>
      simp [has_dj, hm, ha]
  · have ha' : u.administrator = false := by
      cases h : u.administrator
      · rfl
      · exact absurd h ha
    refine ⟨fun h => absurd h ha, fun h => ?_, fun r hr hr0 => ?_⟩
    · simp [has_dj, hm, ha', h]
    · simp [has_dj, hm, ha', hr, intTruthy, hr0, List.any_eq_true, beq_iff_eq]

/-- The non-administrator member of the DJ-policy witness scenario. -/
def c5User : DiscordUser :=
  { is_member := true, administrator := false, roles := [9] }

/-- Witness for C5: with no guild-stored role and default role 9, the
    check for a non-administrator member reduces to holding role 9. -/
theorem c5_has_dj_policy_witness :
    c5User.is_member = true ∧
    pyOrInt (getGuildSettings emptyDB 1).1.dj_role_id (some 9) = some 9 ∧
    (has_dj emptyDB (some 9) 1 c5User = true ↔
      c5User.administrator = true ∨ 9 ∈ c5User.roles) :=
  ⟨rfl, rfl, (c5_has_dj_policy emptyDB (some 9) 1 c5User rfl).2.2 9 rfl (by decide)⟩

/-- C6: in loop mode `queue`, when current track `a` finishes and
    `play_next` runs with pending queue `[b, c]`, the finished track is
    appended to the tail before the front is popped, so `b` becomes the
    current track and the final pending queue is `[c, a]`. -/
theorem c6_loop_queue_advance (st : SysState) (p : Player) (a b c : Playable) (now : Rat)
    (hp : st.player = some p) (hc : p.current = some a)
    (hm : st.session.loop_mode = "queue") (hq : st.session.queue = [b, c]) :
    (play_next st now).player.bind Player.current = some b ∧
    (play_next st now).session.queue = [c, a] ∧
    (play_next st now).session.last_track = some b := by
  simp [play_next, hp, hc, hm, hq]

/-- Tracks of the loop-queue witness scenario. -/
def c6A : Playable :=
  { title := "A", uri := "uri-a", author := "AA", length := 1
    artwork := none, extras_requester := none }

/-- Second track of the loop-queue witness scenario. -/
def c6B : Playable :=
  { title := "B", uri := "uri-b", author := "AB", length := 2
    artwork := none, extras_requester := none }

/-- Third track of the loop-queue witness scenario. -/
def c6C : Playable :=
  { title := "C", uri := "uri-c", author := "AC", length := 3
    artwork := none, extras_requester := none }

/-- The player of the loop-queue witness scenario. -/
def c6P : Player :=
  { channel_id := 5, current := some c6A, playing := true, paused := false
    volume := 100 }

/-- The state of the loop-queue witness scenario. -/
def c6State : SysState :=
  { guild_id := 1
    db := emptyDB
    session := { initSession with loop_mode := "queue", queue := [c6B, c6C] }
    player := some c6P
    lavalink_connected := true }

/-- Witness for C6 at a concrete state. -/
theorem c6_loop_queue_advance_witness :
    (play_next c6State 0).player.bind Player.current = some c6B ∧
    (play_next c6State 0).session.queue = [c6C, c6A] ∧
    (play_next c6State 0).session.last_track = some c6B :=
  c6_loop_queue_advance c6State c6P c6A c6B c6C 0 rfl rfl rfl rfl

/-- The rows `save_queue` writes for `tracks`, starting at position `n`. -/
def rowsFrom (g : Int) : Nat → List StoredTrack → List QueueRow
  | _, [] => []
  | n, t :: ts => mkRow g (Int.ofNat n) t :: rowsFrom g (n + 1) ts

/-- The insert loop of `save_queue`, started at offset `k`, appends exactly
    the rows at positions `k, k+1, ...`. -/
lemma saveQueue_foldl_insert (g : Int) (ts : List StoredTrack) :
    ∀ (k : Nat) (db : DB),
      (List.enumFrom k ts).foldl
          (fun acc pt => saveQueueInsert g (Int.ofNat pt.1) pt.2 acc) db
        = { db with persistent_queue := db.persistent_queue ++ rowsFrom g k ts } := by
  induction ts with
  | nil => intro k db; simp [rowsFrom, List.enumFrom]
  | cons t ts ih =>
    intro k db
    simp only [List.enumFrom, List.foldl_cons]
    rw [ih (k + 1)]
    simp [saveQueueInsert, rowsFrom]

/-- `save_queue` replaces the guild's rows by the freshly enumerated ones. -/
lemma save_queue_eq (db : DB) (g : Int) (ts : List StoredTrack) :
    save_queue db g ts =
      { db with persistent_queue :=
          deleteGuildRows db.persistent_queue g ++ rowsFrom g 0 ts } := by
  unfold save_queue
  have h := saveQueue_foldl_insert g ts 0 (saveQueueDelete g db)
  simpa [saveQueueDelete, List.enum] using h

/-- `selectGuildRows` distributes over append. -/
lemma selectGuildRows_append (l₁ l₂ : List QueueRow) (g : Int) :
    selectGuildRows (l₁ ++ l₂) g = selectGuildRows l₁ g ++ selectGuildRows l₂ g := by
  induction l₁ with
  | nil => simp [selectGuildRows]
  | cons r rs ih =>
    simp only [List.cons_append, selectGuildRows]
    split <;> simp [ih]

/-- After deleting a guild's rows, selecting that guild finds nothing. -/
lemma selectGuildRows_deleteGuildRows (l : List QueueRow) (g : Int) :
    selectGuildRows (deleteGuildRows l g) g = [] := by
  induction l with
  | nil => rfl
  | cons r rs ih =>
    simp only [deleteGuildRows]
    split
    · exact ih
    · simp [selectGuildRows, *]

/-- The rows written for guild `g` all survive selection for `g`. -/
lemma selectGuildRows_rowsFrom (g : Int) :
    ∀ (n : Nat) (ts : List StoredTrack),
      selectGuildRows (rowsFrom g n ts) g = rowsFrom g n ts := by
  intro n ts
  induction ts generalizing n with
  | nil => rfl
  | cons t ts ih => simp [rowsFrom, selectGuildRows, mkRow, ih]

/-- The guild's rows after `save_queue` are exactly the enumerated ones. -/
lemma select_save_queue (db : DB) (g : Int) (ts : List StoredTrack) :
    selectGuildRows (save_queue db g ts).persistent_queue g = rowsFrom g 0 ts := by
  rw [save_queue_eq]
  simp [selectGuildRows_append, selectGuildRows_deleteGuildRows,
    selectGuildRows_rowsFrom]

/-- Freshly enumerated rows are already in ascending position order, so the
    `ORDER BY position ASC` sort leaves them unchanged. -/
lemma sortByPosition_rowsFrom (g : Int) :
    ∀ (n : Nat) (ts : List StoredTrack),
      sortByPosition (rowsFrom g n ts) = rowsFrom g n ts := by
  intro n ts
  induction ts generalizing n with
  | nil => rfl
  | cons t ts ih =>
    simp only [rowsFrom, sortByPosition, ih (n + 1)]
    cases ts with
    | nil => rfl
    | cons t' ts' =>
      simp only [rowsFrom, insertByPos, mkRow]
      rw [if_pos]
      exact Int.ofNat_le.mpr (Nat.le_succ n)

/-- Coalescing with default `0` is the identity on a non-null integer. -/
lemma pyOrIntD_some_zero (a : Int) : pyOrIntD (some a) 0 = a := by
  simp only [pyOrIntD]
  split <;> omega

/-- Loading a row written for a track with a non-empty author recovers the
    track exactly. -/
lemma rowToStored_mkRow (g pos : Int) (t : StoredTrack) (h : t.author ≠ "") :
    rowToStored (mkRow g pos t) = t := by
  obtain ⟨title, uri, author, len, art, req⟩ := t
  simp only [rowToStored, mkRow, pyOrStrD, pyOrIntD_some_zero] at *
  simp [h]

/-- Mapping row reconstruction over freshly written rows recovers the track
    list whenever every author is non-empty. -/
lemma map_rowToStored_rowsFrom (g : Int) :
    ∀ (n : Nat) (ts : List StoredTrack), (∀ t ∈ ts, t.author ≠ "") →
      (rowsFrom g n ts).map rowToStored = ts := by
  intro n ts
  induction ts generalizing n with
  | nil => intro _; rfl
  | cons t ts ih =>
    intro h
    simp only [rowsFrom, List.map_cons]
    rw [rowToStored_mkRow _ _ t (h t (by simp)), ih (n + 1) fun x hx => h x (by simp [hx])]

/-- The positions of freshly written rows count up from the start offset. -/
lemma rowsFrom_map_position (g : Int) :
    ∀ (n : Nat) (ts : List StoredTrack),
      (rowsFrom g n ts).map QueueRow.position
        = (List.range' n ts.length).map Int.ofNat := by
  intro n ts
  induction ts generalizing n with
  | nil => rfl
  | cons t ts ih => simp [rowsFrom, List.range', mkRow, ih (n + 1)]

/-- The track whose empty author refutes the literal round-trip claim. -/
def c3EmptyAuthorTrack : StoredTrack :=
  { title := "T", uri := "u", author := "", length := 5
    artwork := none, requester_id := 1 }

/-- C3 counterexample: a saved track whose `author` field is the empty
    string is loaded back with author `"Unknown"` (`row["author"] or
    "Unknown"` treats `""` as falsy), so the round-trip is not the
    identical sequence the claim states. -/
theorem c3_roundtrip_counterexample :
    load_queue (save_queue emptyDB 1 [c3EmptyAuthorTrack]) 1
      = [{ c3EmptyAuthorTrack with author := "Unknown" }] ∧
    load_queue (save_queue emptyDB 1 [c3EmptyAuthorTrack]) 1
      ≠ [c3EmptyAuthorTrack] := by
  decide

/-- C3 (amended): for every guild and stored-track list in which every
    track's author is non-empty, `save_queue` followed by `load_queue`
    returns the identical ordered sequence, and the snapshot is written
    with contiguous positions `0 .. n-1`; in general a saved empty author
    is loaded back as `"Unknown"`. -/
theorem c3_roundtrip_amended (db : DB) (g : Int) (ts : List StoredTrack)
    (h : ∀ t ∈ ts, t.author ≠ "") :
    load_queue (save_queue db g ts) g = ts ∧
    (selectGuildRows (save_queue db g ts).persistent_queue g).map QueueRow.position
      = (List.range ts.length).map Int.ofNat := by
  constructor
  · unfold load_queue
    rw [select_save_queue, sortByPosition_rowsFrom, map_rowToStored_rowsFrom g 0 ts h]
  · rw [select_save_queue, rowsFrom_map_position, List.range_eq_range']

/-- First track of the round-trip witness scenario. -/
def c3T1 : StoredTrack :=
  { title := "S1", uri := "su-1", author := "W", length := 10
    artwork := some "art", requester_id := 7 }

/-- Second track of the round-trip witness scenario (zero length and zero
    requester, exercising the falsy-integer coalescing). -/
def c3T2 : StoredTrack :=
  { title := "S2", uri := "su-2", author := "V", length := 0
    artwork := none, requester_id := 0 }

/-- Witness for C3 at a concrete store and track list. -/
theorem c3_roundtrip_amended_witness :
    (∀ t ∈ [c3T1, c3T2], t.author ≠ "") ∧
    load_queue (save_queue emptyDB 2 [c3T1, c3T2]) 2 = [c3T1, c3T2] ∧
    (selectGuildRows (save_queue emptyDB 2 [c3T1, c3T2]).persistent_queue 2).map
      QueueRow.position = (List.range 2).map Int.ofNat :=
  ⟨by decide, (c3_roundtrip_amended emptyDB 2 [c3T1, c3T2] (by decide)).1,
    (c3_roundtrip_amended emptyDB 2 [c3T1, c3T2] (by decide)).2⟩

/-- C7: on an n-length pending queue, `remove 0` and `remove (n+1)` both
    fail with the reported error and leave the whole state — in-memory
    queue and durable store alike — unchanged, while `remove 1` (queue
    non-empty) removes exactly the first pending entry, leaves the rest of
    the session and the player untouched, and persists the new full
    snapshot for the guild. -/
theorem c7_remove_bounds (st : SysState) :
    remove st 0 = ("Invalid queue index.", st) ∧
    remove st ((st.session.queue.length : Int) + 1) = ("Invalid queue index.", st) ∧
    (st.session.queue ≠ [] →
      (remove st 1).1 = "Removed track." ∧
      (remove st 1).2.session.queue = st.session.queue.drop 1 ∧
      selectGuildRows (remove st 1).2.db.persistent_queue st.guild_id
        = rowsFrom st.guild_id 0 ((st.session.queue.drop 1).map stored) ∧
      (remove st 1).2.session.loop_mode = st.session.loop_mode ∧
      (remove st 1).2.session.retry_attempts = st.session.retry_attempts ∧
      (remove st 1).2.player = st.player) := by
  refine ⟨?_, ?_, ?_⟩
  · have h0 : ((0 : Int) < 1 ∨ (0 : Int) > (st.session.queue.length : Int)) :=
      Or.inl (by omega)
    simp only [remove]
    rw [if_pos h0]
  · have h1 : ((st.session.queue.length : Int) + 1 < 1 ∨
        (st.session.queue.length : Int) + 1 > (st.session.queue.length : Int)) :=
      Or.inr (by omega)
    simp only [remove]
    rw [if_pos h1]
  · intro hne
    have hlen : 0 < st.session.queue.length := List.length_pos.mpr hne
    have hcond : ¬((1 : Int) < 1 ∨ (1 : Int) > (st.session.queue.length : Int)) := by
      push_neg
      constructor <;> omega
    obtain ⟨hd, tl, hq⟩ := List.exists_cons_of_ne_nil hne
    simp only [remove]
    rw [if_neg hcond]
    have herase : st.session.queue.eraseIdx ((1 : Int) - 1).toNat
        = st.session.queue.drop 1 := by
      rw [hq]
      norm_num [List.eraseIdx]
    simp [herase, select_save_queue]

/-- First queued track of the remove-bounds witness scenario. -/
def c7Track1 : Playable :=
  { title := "Q1", uri := "qu-1", author := "QA", length := 4
    artwork := none, extras_requester := some 6 }

/-- Second queued track of the remove-bounds witness scenario. -/
def c7Track2 : Playable :=
  { title := "Q2", uri := "qu-2", author := "QB", length := 8
    artwork := none, extras_requester := none }

/-- The state of the remove-bounds witness scenario. -/
def c7State : SysState :=
  { guild_id := 3
    db := emptyDB
    session := { initSession with queue := [c7Track1, c7Track2] }
    player := none
    lavalink_connected := true }

/-- Witness for C7 at a concrete two-track queue. -/
theorem c7_remove_bounds_witness :
    remove c7State 0 = ("Invalid queue index.", c7State) ∧
    c7State.session.queue ≠ [] ∧
    (remove c7State 1).1 = "Removed track." ∧
    (remove c7State 1).2.session.queue = c7State.session.queue.drop 1 :=
  ⟨(c7_remove_bounds c7State).1, by decide,
    ((c7_remove_bounds c7State).2.2 (by decide)).1,
    ((c7_remove_bounds c7State).2.2 (by decide)).2.1⟩

/-- After an upsert, looking up the upserted key finds the new value. -/
lemma lookupCooldown_upsert_self (t : List ((Int × Int × String) × Rat))
    (k : Int × Int × String) (v : Rat) :
    lookupCooldown (upsertCooldown t k v) k = some v := by
  induction t with
  | nil => simp [upsertCooldown, lookupCooldown]
  | cons p ps ih =>
    by_cases h : p.1 = k <;> simp [upsertCooldown, lookupCooldown, h, ih]

/-- After an upsert, every other key's record is unchanged. -/
lemma lookupCooldown_upsert_other (t : List ((Int × Int × String) × Rat))
    (k k' : Int × Int × String) (v : Rat) (h : k' ≠ k) :
    lookupCooldown (upsertCooldown t k v) k' = lookupCooldown t k' := by
  induction t with
  | nil => simp [upsertCooldown, lookupCooldown, Ne.symm h]
  | cons p ps ih =>
    by_cases hp : p.1 = k
    · subst hp
      simp [upsertCooldown, lookupCooldown, Ne.symm h]
    · simp [upsertCooldown, lookupCooldown, hp, ih]

/-- C8: the cooldown check returns whether the caller is currently
    throttled — a stored record less than the window old — and it writes
    `now` into the record only when the caller is not throttled; when
    throttled the store is returned unchanged, and an untrottled update
    touches no other cooldown record and no other table. -/
theorem c8_cooldown_gate (db : DB) (g u : Int) (command : String) (w now : Rat) :
    ((is_on_cooldown db g u command w now).1 = true ↔
      ∃ last, lookupCooldown db.command_cooldowns (g, u, command) = some last ∧
        now - last < w) ∧
    ((is_on_cooldown db g u command w now).1 = true →
      (is_on_cooldown db g u command w now).2 = db) ∧
    ((is_on_cooldown db g u command w now).1 = false →
      lookupCooldown (is_on_cooldown db g u command w now).2.command_cooldowns
          (g, u, command) = some now ∧
      (∀ k, k ≠ (g, u, command) →
        lookupCooldown (is_on_cooldown db g u command w now).2.command_cooldowns k
          = lookupCooldown db.command_cooldowns k) ∧
      (is_on_cooldown db g u command w now).2.persistent_queue = db.persistent_queue ∧
      (is_on_cooldown db g u command w now).2.guild_settings = db.guild_settings) := by
  unfold is_on_cooldown
  cases hl : lookupCooldown db.command_cooldowns (g, u, command) with
  | none =>
    refine ⟨by simp [hl], by simp, fun _ => ⟨lookupCooldown_upsert_self _ _ _, fun k hk =>
      lookupCooldown_upsert_other _ _ _ _ hk, rfl, rfl⟩⟩
  | some last =>
    by_cases hlt : now - last < w
    · refine ⟨by simp [hl, hlt], by simp [hlt], by simp [hlt]⟩
    · refine ⟨by simp [hl, hlt], by simp [hlt], fun _ =>
        ⟨by simp [hlt, lookupCooldown_upsert_self], fun k hk => ?_, by simp [hlt],
          by simp [hlt]⟩⟩
      simp only [hlt, if_neg]
      exact lookupCooldown_upsert_other _ _ _ _ hk

/-- The store of the cooldown witness scenario: guild 1, user 2 last used
    `play` at wall time 49/5. -/
def c8Db : DB :=
  { emptyDB with command_cooldowns := [((1, 2, "play"), 49 / 5)] }

/-- Witness for C8: at wall time 10 the caller is throttled (1/5 s since
    last use, window 6/5 s) and the store is returned unchanged. -/
theorem c8_cooldown_gate_witness :
    (is_on_cooldown c8Db 1 2 "play" (6 / 5) 10).1 = true ∧
    (is_on_cooldown c8Db 1 2 "play" (6 / 5) 10).2 = c8Db :=
  have h1 : (is_on_cooldown c8Db 1 2 "play" (6 / 5) 10).1 = true :=
    (c8_cooldown_gate c8Db 1 2 "play" (6 / 5) 10).1.mpr
      ⟨49 / 5, by norm_num [c8Db, lookupCooldown, emptyDB], by norm_num⟩
  ⟨h1, (c8_cooldown_gate c8Db 1 2 "play" (6 / 5) 10).2.1 h1⟩

/-- `play_next` never touches the retry counter: every branch carries
    `retry_attempts` through unchanged. -/
lemma play_next_retry_attempts (st : SysState) (now : Rat) :
    (play_next st now).session.retry_attempts = st.session.retry_attempts := by
  unfold play_next
  cases st.player with
  | none => rfl
  | some p =>
    dsimp only
    split
    · rfl
    · cases hc : p.current with
      | none =>
        dsimp only
        split <;> rfl
      | some c =>
        dsimp only
        by_cases hm : st.session.loop_mode == "queue" <;> simp only [hm, if_pos, if_neg] <;>
          split <;> rfl

/-- `play_query` never touches the retry counter either: its own session
    writes are the volume restore and the queue append, and its final
    `play_next` call preserves the counter. -/
lemma play_query_retry_attempts (st : SysState) (user : VoiceUser)
    (result : SearchResult) (now : Rat) :
    (play_query st user result now).2.session.retry_attempts
      = st.session.retry_attempts := by
  unfold play_query
  cases user.voice_channel with
  | none => rfl
  | some vc =>
    dsimp only
    split
    · rfl
    · split
      · rfl
      · dsimp only
        split
        · rw [play_next_retry_attempts]
        · rfl

/-- C9: `play_next` never modifies a session's `retry_attempts` —
    successfully starting a new track does not reset it — and neither does
    `play_query`; the counter changes only inside the track-exception
    handler.  Consequently a failure count carried over from an earlier
    track reduces the replays a later failing track receives: at a
    carried-over count of 2 the very first exception of the new track is
    already force-skipped with no replay. -/
theorem c9_retry_frame :
    (∀ (st : SysState) (now : Rat),
      (play_next st now).session.retry_attempts = st.session.retry_attempts) ∧
    (∀ (st : SysState) (user : VoiceUser) (result : SearchResult) (now : Rat),
      (play_query st user result now).2.session.retry_attempts
        = st.session.retry_attempts) ∧
    (∀ (st : SysState) (p : Player) (t : Playable) (exc : String),
      st.player = some p → p.current = some t → st.session.retry_attempts = 2 →
      (handle_track_exception st exc).2 = .force_skip ∧
      (handle_track_exception st exc).1.session.retry_attempts = 0) := by
  refine ⟨play_next_retry_attempts, play_query_retry_attempts, ?_⟩
  intro st p t exc hp hc hr
  constructor <;> simp [handle_track_exception, hp, hc, hr]

/-- The carried-over track of the retry-frame witness scenario. -/
def c9Track : Playable :=
  { title := "N", uri := "uri-n", author := "NA", length := 9
    artwork := none, extras_requester := none }

/-- The player of the retry-frame witness scenario. -/
def c9P : Player :=
  { channel_id := 4, current := some c9Track, playing := true, paused := false
    volume := 100 }

/-- The state of the retry-frame witness scenario: a session that already
    accumulated `retry_attempts = 2` on an earlier track. -/
def c9State : SysState :=
  { guild_id := 1
    db := emptyDB
    session := { initSession with retry_attempts := 2 }
    player := some c9P
    lavalink_connected := true }

/-- Witness for C9 at a concrete state. -/
theorem c9_retry_frame_witness :
    (play_next c9State 0).session.retry_attempts = c9State.session.retry_attempts ∧
    (handle_track_exception c9State "x").2 = .force_skip :=
  ⟨c9_retry_frame.1 c9State 0,
    (c9_retry_frame.2.2 c9State c9P c9Track "x" rfl rfl rfl).1⟩

/-- Setting an author's window entry makes the subsequent read return it. -/
lemma windowGet_windowSet_self (w : List (Int × Rat)) (a : Int) (v : Rat) :
    windowGet (windowSet w a v) a = v := by
  induction w with
  | nil => simp [windowSet, windowGet]
  | cons p ps ih =>
    by_cases h : p.1 = a <;> simp [windowSet, windowGet, h, ih]

/-- Any message that gets past both early returns of `on_message` — the
    bot/DM check and the rate limit — records its loop-clock time as the
    author's window entry, whatever happens afterwards. -/
lemma on_message_window_update (st : BotState) (m : InboundMessage)
    (h1 : (on_message st m).1 ≠ .ignored_bot_or_dm)
    (h2 : (on_message st m).1 ≠ .dropped_rate_limit) :
    (on_message st m).2.user_message_window
      = windowSet st.user_message_window m.author_id m.loop_time := by
  unfold on_message at h1 h2 ⊢
  cases hg : m.guild_id with
  | none =>
    rw [hg] at h1
    exact absurd rfl h1
  | some g =>
    rw [hg] at h1 h2
    dsimp only at h1 h2 ⊢
    cases hb : m.author_is_bot with
    | true =>
      rw [hb] at h1
      exact absurd rfl h1
    | false =>
      rw [hb] at h1 h2
      simp only [Bool.false_eq_true, if_false] at h1 h2 ⊢
      by_cases hr : m.loop_time - windowGet st.user_message_window m.author_id < 3 / 5
      · rw [if_pos hr] at h2
        exact absurd rfl h2
      · rw [if_neg hr] at h1 ⊢
        split <;> [rfl; split <;> [rfl; split <;> rfl]]

/-- A non-bot guild message arriving within 3/5 s of the author's window
    entry is dropped by the rate limit with no state change at all. -/
lemma on_message_rate_limited (st : BotState) (m : InboundMessage)
    (hb : m.author_is_bot = false) (g : Int) (hg : m.guild_id = some g)
    (hr : m.loop_time - windowGet st.user_message_window m.author_id < 3 / 5) :
    on_message st m = (.dropped_rate_limit, st) := by
  unfold on_message
  rw [hg, hb]
  dsimp only
  rw [if_neg Bool.false_ne_true, if_pos hr]

/-- C10 (amended): the in-memory rate limit drops a message exactly when
    less than 0.6 s of event-loop time has passed since the author's last
    *accepted* message (not since any message).  In particular, whenever a
    first message from an author gets past the bot/DM check and the rate
    limit, any second non-bot guild message from the same author arriving
    less than 0.6 s later — in any guild and with any content, command or
    not — is dropped before the command-set check, the durable cooldown
    gate, and any command handling, leaving the bot state (window and
    store) completely unchanged. -/
theorem c10_rate_limit_amended (st : BotState) (m1 m2 : InboundMessage)
    (h1 : (on_message st m1).1 ≠ .ignored_bot_or_dm)
    (h2 : (on_message st m1).1 ≠ .dropped_rate_limit)
    (ha : m2.author_id = m1.author_id)
    (hb : m2.author_is_bot = false)
    (hg : m2.guild_id.isSome = true)
    (ht : m2.loop_time - m1.loop_time < 3 / 5) :
    on_message (on_message st m1).2 m2 = (.dropped_rate_limit, (on_message st m1).2) := by
  obtain ⟨g2, hg2⟩ := Option.isSome_iff_exists.mp hg
  apply on_message_rate_limited _ _ hb g2 hg2
  rw [on_message_window_update st m1 h1 h2, ha, windowGet_windowSet_self]
  exact ht

/-- First probe message: author 7 sends `queue` in guild 1 at loop time 1
    (wall time 1000). -/
def c10M1 : InboundMessage :=
  { author_id := 7, author_is_bot := false, guild_id := some 1
    content := "queue", loop_time := 1, wall_time := 1000 }

/-- Second probe message: the same author again in guild 1 at loop time
    13/10, only 0.3 s after the first. -/
def c10M2 : InboundMessage :=
  { author_id := 7, author_is_bot := false, guild_id := some 1
    content := "queue", loop_time := 13 / 10, wall_time := 1001 }

/-- Third probe message: the same author in a different guild at loop time
    17/10, only 0.4 s after the second. -/
def c10M3 : InboundMessage :=
  { author_id := 7, author_is_bot := false, guild_id := some 2
    content := "queue", loop_time := 17 / 10, wall_time := 1002 }

/-- The bot state before the probe messages. -/
def c10S0 : BotState := { user_message_window := [], db := emptyDB }

/-- The store after the first message's cooldown upsert. -/
def c10Db1 : DB :=
  { emptyDB with command_cooldowns := [((1, 7, "queue"), 1000)] }

/-- The bot state after the first message. -/
def c10S1 : BotState := { user_message_window := [(7, 1)], db := c10Db1 }

/-- The store after the third message's cooldown upsert. -/
def c10Db3 : DB :=
  { emptyDB with
      command_cooldowns := [((1, 7, "queue"), 1000), ((2, 7, "queue"), 1002)] }

/-- The bot state after the third message. -/
def c10S3 : BotState := { user_message_window := [(7, 17 / 10)], db := c10Db3 }

/-- Evaluation of the first probe message: it is accepted and dispatched,
    recording window time 1 and the cooldown row. -/
lemma on_message_c10M1_eval :
    on_message c10S0 c10M1 = (.dispatched "queue" [], c10S1) := by
  unfold on_message
  dsimp only [c10S0, c10M1]
  rw [show windowGet ([] : List (Int × Rat)) 7 = 0 from rfl]
  rw [if_neg (by norm_num : ¬((1 : Rat) - 0 < 3 / 5))]
  decide

/-- Evaluation of the second probe message: 0.3 s after the accepted
    first one, it is dropped by the rate limit with no state change. -/
lemma on_message_c10M2_eval :
    on_message c10S1 c10M2 = (.dropped_rate_limit, c10S1) := by
  apply on_message_rate_limited c10S1 c10M2 rfl 1 rfl
  rw [show windowGet c10S1.user_message_window c10M2.author_id = 1 from by decide]
  norm_num [c10M2]

/-- Evaluation of the third probe message: 0.4 s after the second (which
    was dropped), it nevertheless passes the rate limit — the window still
    holds the first message's time — reaches the command-set check and the
    cooldown gate in its own guild, and is dispatched. -/
lemma on_message_c10M3_eval :
    on_message c10S1 c10M3 = (.dispatched "queue" [], c10S3) := by
  unfold on_message
  dsimp only [c10S1, c10M3, c10Db1]
  rw [show windowGet [((7 : Int), (1 : Rat))] 7 = 1 from by decide]
  rw [if_neg (by norm_num : ¬((17 / 10 : Rat) - 1 < 3 / 5))]
  rfl

/-- C10 counterexample: the claim — every second of two messages from one
    author less than 0.6 s apart is dropped before the command-set check,
    cooldown gate and handling — is false.  Messages two and three arrive
    0.4 s apart from the same author, yet the third is fully dispatched,
    because the window compares against the last *accepted* message (the
    first), not the last message. -/
theorem c10_rate_limit_counterexample :
    c10M3.author_id = c10M2.author_id ∧
    c10M3.loop_time - c10M2.loop_time < 3 / 5 ∧
    (on_message (on_message c10S0 c10M1).2 c10M2).1 = .dropped_rate_limit ∧
    (on_message (on_message (on_message c10S0 c10M1).2 c10M2).2 c10M3).1
      = .dispatched "queue" [] := by
  refine ⟨rfl, by norm_num [c10M2, c10M3], ?_, ?_⟩
  · simp only [on_message_c10M1_eval, on_message_c10M2_eval]
  · simp only [on_message_c10M1_eval, on_message_c10M2_eval, on_message_c10M3_eval]

/-- Witness for C10's amended theorem at the concrete probe messages. -/
theorem c10_rate_limit_amended_witness :
    (on_message c10S0 c10M1).1 ≠ .ignored_bot_or_dm ∧
    (on_message c10S0 c10M1).1 ≠ .dropped_rate_limit ∧
    c10M2.author_id = c10M1.author_id ∧
    c10M2.loop_time - c10M1.loop_time < 3 / 5 ∧
    on_message (on_message c10S0 c10M1).2 c10M2
      = (.dropped_rate_limit, (on_message c10S0 c10M1).2) := by
  have h1 : (on_message c10S0 c10M1).1 ≠ .ignored_bot_or_dm := by
    rw [on_message_c10M1_eval]
    decide
  have h2 : (on_message c10S0 c10M1).1 ≠ .dropped_rate_limit := by
    rw [on_message_c10M1_eval]
    decide
  exact ⟨h1, h2, rfl, by norm_num [c10M1, c10M2],
    c10_rate_limit_amended c10S0 c10M1 c10M2 h1 h2 rfl rfl rfl
      (by norm_num [c10M1, c10M2])⟩
